import Mathlib

/-!
Verification of the queue/worker/timeout/cancellation subsystem of the
exam-solver server (`server_queue.py`) and of the response sanitizer of
the synchronous solver (`sample.py`).

The embedding is shallow: Python dictionaries holding per-task state
become functions `String → Option _`; the FIFO queue becomes a list;
JSON values become an inductive type; child processes are represented
by an aliveness flag in `processMap`, and the blocking worker loop is
split at its suspension point into `worker_begin` (dequeue up to
`p.start(); p.join(...)`) and `worker_finish` (everything after the
join returns), so interleavings with the cancel endpoint can be
expressed by sequencing these functions.
-/

namespace Spec2Proof

/-! ## JSON values (Python values flowing through dicts and files) -/

/-- A model of the Python/JSON values that appear in parsed dictionaries:
`None`, booleans, numbers (modelled as integers), strings, lists and
dictionaries. -/
inductive Json where
  | null
  | bool (b : Bool)
  | num (n : Int)
  | str (s : String)
  | arr (xs : List Json)
  | obj (kvs : List (String × Json))

/-- Python truthiness: `None`, `False`, `0`, `""`, `[]` and the empty dict
are falsy, everything else is truthy. -/
def Json.truthy : Json → Bool
  | .null => false
  | .bool b => b
  | .num n => n != 0
  | .str s => s != ""
  | .arr xs => !xs.isEmpty
  | .obj kvs => !kvs.isEmpty

mutual

/-- Python `str(...)` applied to a value. On a string it is the string
itself (the only case the sanitizer's length bound depends on); on other
values it is a rendering of the value. -/
def Json.pyStr : Json → String
  | .null => "None"
  | .bool b => if b then "True" else "False"
  | .num n => toString n
  | .str s => s
  | .arr xs => "[" ++ pyStrItems xs ++ "]"
  | .obj kvs => "\x7b" ++ pyStrPairs kvs ++ "\x7d"

/-- Comma-separated rendering of list items, for `Json.pyStr`. -/
def pyStrItems : List Json → String
  | [] => ""
  | [x] => x.pyStr
  | x :: xs => x.pyStr ++ ", " ++ pyStrItems xs

/-- Comma-separated rendering of dict entries, for `Json.pyStr`. -/
def pyStrPairs : List (String × Json) → String
  | [] => ""
  | [(k, v)] => k ++ ": " ++ v.pyStr
  | (k, v) :: kvs => k ++ ": " ++ v.pyStr ++ ", " ++ pyStrPairs kvs

end

/-- Python `dict.get(key)`: the value stored under `key`, or `None`
(here `none`) when the key is absent. -/
def pget (d : List (String × Json)) (k : String) : Option Json :=
  match d.find? (fun kv => kv.1 == k) with
  | some kv => some kv.2
  | none => none

/-- Python string slicing `s[:n]` (by characters). -/
def pyTake (s : String) (n : Nat) : String := ⟨s.data.take n⟩

/-! ## sample.py: `sanitize_and_build_response` -/

/-- The response dictionary built by `sanitize_and_build_response`
(fixed key set, per the schema in `sample.py`). -/
structure SolveResponse where
  question_number : Option Int
  total_images : Nat
  status : String
  correct_option : Option String
  explanation : Option String
deriving DecidableEq, Repr

/-- The `status` field: copied from the parsed dict when it is one of
`"ok"`, `"unclear"`, `"confused"`; otherwise the default `"confused"`
stands (lines `status = parsed.get("status"); if status in (...)`). -/
def statusField (d : List (String × Json)) : String :=
  match pget d "status" with
  | some (.str s) =>
      if s = "ok" ∨ s = "unclear" ∨ s = "confused" then s else "confused"
  | _ => "confused"

/-- The `correct_option` field: when `parsed.get("correct_option")` is
truthy and a string, it is stripped and upper-cased and kept only when
it is one of `A`–`E`; otherwise the default `None` stands. -/
def correctOptionField (d : List (String × Json)) : Option String :=
  match pget d "correct_option" with
  | some j =>
      if j.truthy then
        match j with
        | .str s =>
            let opt := s.trim.toUpper
            if opt = "A" ∨ opt = "B" ∨ opt = "C" ∨ opt = "D" ∨ opt = "E" then
              some opt
            else none
        | _ => none
      else none
  | none => none

/-- The `explanation` field: when `parsed.get("explanation")` is truthy,
`str(...)[:200]` of it; otherwise the default `None` stands. -/
def explanationField (d : List (String × Json)) : Option String :=
  match pget d "explanation" with
  | some j => if j.truthy then some (pyTake j.pyStr 200) else none
  | none => none

/-- `sanitize_and_build_response(parsed, qnum, total_images)` from
`sample.py`. The input dict is `none` when absent (Python `None`); an
absent or empty dict returns the default shape unchanged
(`if not parsed: return out`). -/
def sanitize_and_build_response (parsed : Option (List (String × Json)))
    (qnum : Option Int) (total_images : Nat) : SolveResponse :=
  let out : SolveResponse :=
    { question_number := qnum
      total_images := total_images
      status := "confused"
      correct_option := none
      explanation := none }
  match parsed with
  | none => out
  | some d =>
      if d.isEmpty then out
      else
        { out with
            status := statusField d
            correct_option := correctOptionField d
            explanation := explanationField d }

/-! ## server_queue.py: data model -/

/-- The status strings stored in the `TASKS` dict:
`queued | processing | done | failed | cancelled`. -/
inductive Status where
  | queued
  | processing
  | done
  | failed
  | cancelled
deriving DecidableEq, Repr

/-- A parsed `result.json` file. The writers in `server_queue.py`
produce either `{"status": "done", "result": ...}` or
`{"status": "failed", "error": ...}`. -/
inductive RFile where
  | doneFile (result : Json)
  | failedFile (error : String)

/-- The content of a `result.json` file on disk: either unparseable
(`json.loads` raises) or a parsed record. -/
inductive FileContent where
  | malformed
  | parsed (f : RFile)

/-- A per-task scratch directory under `UPLOAD_ROOT`: its modification
time, the image files written by `save_upload_files`, and the
`result.json` handoff file (absent until written). -/
structure ScratchDir where
  mtime : Int
  images : List String
  resultFile : Option FileContent

/-- A queue entry, as put by the upload endpoint:
`{"task_id": ..., "image_paths": ..., "batch_id": ..., "question_number": ...}`. -/
structure TaskDesc where
  task_id : String
  image_paths : List String
  batch_id : Option String
  question_number : Option String
deriving DecidableEq, Repr

/-- A value of the `RESULTS` dict: `{"error": msg}` (timeout, missing
result file, worker exception, cancel endpoint), or `res.get("result")`
of a done file, or the whole parsed file dict (non-done file). -/
inductive ResultEntry where
  | errEntry (msg : String)
  | resEntry (r : Json)
  | fileEntry (f : RFile)

/-- The whole in-memory and on-disk state of the server:
`TASKS`, `RESULTS`, `CANCELLED`, `PROCESS_MAP` (the mapped Bool is
`p.is_alive()`), `TASK_QUEUE`, the scratch directories under
`UPLOAD_ROOT`, and the log of task ids for which a child process
running the external solve call was spawned. -/
structure ServerState where
  tasks : String → Option Status
  results : String → Option ResultEntry
  cancelled : String → Bool
  processMap : String → Option Bool
  taskQueue : List TaskDesc
  scratch : String → Option ScratchDir
  solveCalls : List String

/-! ## server_queue.py: file helpers -/

/-- `write_result_file(task_id, payload)`: writes `result.json` into the
task's scratch directory; any exception (in particular a missing
directory) is swallowed, leaving the state unchanged. -/
def write_result_file (scratch : String → Option ScratchDir) (task_id : String)
    (payload : RFile) : String → Option ScratchDir :=
  fun t =>
    if t = task_id then
      match scratch task_id with
      | some d => some { d with resultFile := some (.parsed payload) }
      | none => none
    else scratch t

/-- `read_result_file(task_id)`: the parsed `result.json`, or `None`
when the file is absent or unparseable. -/
def read_result_file (scratch : String → Option ScratchDir) (task_id : String) :
    Option RFile :=
  match scratch task_id with
  | some d =>
      match d.resultFile with
      | some (.parsed f) => some f
      | _ => none
  | none => none

/-- `save_upload_files(task_id, files)`: creates the task's scratch
directory and writes the uploaded images into it, returning their
paths. An I/O failure (`ioFail`) raises after `written` images have
been stored, returning no paths. -/
def save_upload_files (scratch : String → Option ScratchDir) (task_id : String)
    (files : List String) (now : Int) (ioFail : Bool) (written : Nat) :
    (String → Option ScratchDir) × Option (List String) :=
  let stored := if ioFail then files.take written else files
  let paths := (List.range files.length).map
    (fun i => task_id ++ "/img_" ++ toString i)
  let scratch1 := fun t =>
    if t = task_id then some ⟨now, stored, none⟩ else scratch t
  (scratch1, if ioFail then none else some paths)

/-! ## server_queue.py: endpoints and worker, split at suspension points -/

/-- Response of the upload endpoint: an `HTTPException` or the
`{"task_id": ..., "status": "queued"}` JSON. -/
inductive UploadResponse where
  | httpError (code : Nat) (detail : String)
  | queuedResp (task_id : String)
deriving DecidableEq, Repr

/-- Response of the cancel endpoint: the 404 JSON or
`{"task_id": ..., "status": "cancelled"}`. -/
inductive CancelResponse where
  | notFound
  | cancelledResp (task_id : String)
deriving DecidableEq, Repr

/-- Response of the result endpoint: the 404 JSON or
`{"task_id": ..., "status": ..., "result": ...}`. -/
inductive QueryResponse where
  | unknown
  | statusResp (task_id : String) (status : Status) (result : Option ResultEntry)

/-- `upload_endpoint`: saves the uploaded files; on failure raises a 400
without touching `TASKS` or the queue; on success records status
`queued` and enqueues the descriptor. `task_id` is the freshly
generated uuid. -/
def upload_endpoint (s : ServerState) (task_id : String) (files : List String)
    (batch_id question_number : Option String) (now : Int)
    (ioFail : Bool) (written : Nat) : ServerState × UploadResponse :=
  let saved := save_upload_files s.scratch task_id files now ioFail written
  match saved.2 with
  | none => ({ s with scratch := saved.1 }, .httpError 400 "Failed saving files")
  | some paths =>
      ({ s with
          scratch := saved.1
          tasks := fun t => if t = task_id then some .queued else s.tasks t
          taskQueue := s.taskQueue ++
            [⟨task_id, paths, batch_id, question_number⟩] },
       .queuedResp task_id)

/-- `result_endpoint`: a pure read of `TASKS` and `RESULTS`. -/
def result_endpoint (s : ServerState) (task_id : String) : QueryResponse :=
  match s.tasks task_id with
  | none => .unknown
  | some st => .statusResp task_id st (s.results task_id)

/-- `cancel_endpoint`: 404 on an unknown id; otherwise adds the id to
`CANCELLED`, unconditionally sets `TASKS[task_id] = "cancelled"`, and if
a live child process is registered, terminates it, writes a
`failed/cancelled_by_user` result file and records the same error in
`RESULTS`. -/
def cancel_endpoint (s : ServerState) (task_id : String) :
    ServerState × CancelResponse :=
  match s.tasks task_id with
  | none => (s, .notFound)
  | some _ =>
      let s1 := { s with
        cancelled := fun t => if t = task_id then true else s.cancelled t
        tasks := fun t => if t = task_id then some .cancelled else s.tasks t }
      match s1.processMap task_id with
      | some true =>
          ({ s1 with
              processMap := fun t =>
                if t = task_id then some false else s1.processMap t
              scratch := write_result_file s1.scratch task_id
                (.failedFile "cancelled_by_user")
              results := fun t =>
                if t = task_id then some (.errEntry "cancelled_by_user")
                else s1.results t },
           .cancelledResp task_id)
      | _ => (s1, .cancelledResp task_id)

/-- First half of a `worker_loop` iteration: dequeue the head
descriptor; if its id is in `CANCELLED`, record `cancelled` and loop
without spawning anything; otherwise record `processing`, spawn the
child process running the external solve call (logged in `solveCalls`,
registered live in `PROCESS_MAP`) and block on `p.join(CHILD_TIMEOUT)`.
Returns the id the worker is now joined on, or `none` when it went back
to the top of the loop (empty queue: the worker blocks in `get()`). -/
def worker_begin (s : ServerState) : ServerState × Option String :=
  match s.taskQueue with
  | [] => (s, none)
  | task :: rest =>
      let tid := task.task_id
      let s0 := { s with taskQueue := rest }
      if s0.cancelled tid then
        ({ s0 with
            tasks := fun t => if t = tid then some .cancelled else s0.tasks t },
         none)
      else
        ({ s0 with
            tasks := fun t => if t = tid then some .processing else s0.tasks t
            processMap := fun t => if t = tid then some true else s0.processMap t
            solveCalls := s0.solveCalls ++ [tid] },
         some tid)

/-- The child process (`child_process_work`) finishing on its own: it
writes its outcome into the task's `result.json` and exits, so it is no
longer alive. -/
def child_finish (s : ServerState) (task_id : String) (outcome : RFile) :
    ServerState :=
  { s with
      scratch := write_result_file s.scratch task_id outcome
      processMap := fun t => if t = task_id then some false else s.processMap t }

/-- Second half of a `worker_loop` iteration, after `p.join(CHILD_TIMEOUT)`
returns: if the child is still alive the deadline expired, so the worker
terminates it and records `failed` with error `"timeout"`; otherwise it
reads the result file and records `done` with the file's result, or
`failed` with error `"no_result_file"` when the file is absent or
unparseable, or `failed` with the whole file dict when its status is not
`"done"`. The `finally` block pops the id from `PROCESS_MAP`. -/
def worker_finish (s : ServerState) (task_id : String) : ServerState :=
  let alive := match s.processMap task_id with
    | some a => a
    | none => false
  let s1 :=
    if alive then
      { s with
          tasks := fun t => if t = task_id then some .failed else s.tasks t
          results := fun t =>
            if t = task_id then some (.errEntry "timeout") else s.results t
          scratch := write_result_file s.scratch task_id (.failedFile "timeout") }
    else
      match read_result_file s.scratch task_id with
      | none =>
          { s with
              tasks := fun t => if t = task_id then some .failed else s.tasks t
              results := fun t =>
                if t = task_id then some (.errEntry "no_result_file")
                else s.results t }
      | some (.doneFile r) =>
          { s with
              tasks := fun t => if t = task_id then some .done else s.tasks t
              results := fun t =>
                if t = task_id then some (.resEntry r) else s.results t }
      | some (.failedFile e) =>
          { s with
              tasks := fun t => if t = task_id then some .failed else s.tasks t
              results := fun t =>
                if t = task_id then some (.fileEntry (.failedFile e))
                else s.results t }
  { s1 with
      processMap := fun t => if t = task_id then none else s1.processMap t }

/-- `cleanup_older(days)`: removes every scratch directory whose
modification time precedes `now - days * 86400`. It reads and writes
nothing but scratch storage. -/
def cleanup_older (s : ServerState) (days : Int) (now : Int) : ServerState :=
  let cutoff := now - days * 86400
  { s with
      scratch := fun t =>
        match s.scratch t with
        | some d => if d.mtime < cutoff then none else some d
        | none => none }

/-! ## Concrete states used as witnesses and counterexamples -/

/-- The state at process start: empty `TASKS`, `RESULTS`, `CANCELLED`,
`PROCESS_MAP`, queue and upload root. -/
def exEmpty : ServerState :=
  { tasks := fun _ => none
    results := fun _ => none
    cancelled := fun _ => false
    processMap := fun _ => none
    taskQueue := []
    scratch := fun _ => none
    solveCalls := [] }

/-- One successful upload of one image as task `t1`. -/
def exUploaded : ServerState :=
  (upload_endpoint exEmpty "t1" ["q5.jpg"] none (some "5") 0 false 0).1

/-- Task `t1` cancelled while still queued (cancel before any worker
dequeues). -/
def exQueuedCancelled : ServerState :=
  (cancel_endpoint exUploaded "t1").1

/-- A worker has dequeued `t1` and spawned its child: `t1` is
`processing` with a live child process. -/
def exProcessing : ServerState := (worker_begin exUploaded).1

/-- The cancel endpoint ran while `t1`'s child was alive. -/
def exAfterCancel : ServerState := (cancel_endpoint exProcessing "t1").1

/-- The worker's `join` then returned and the worker recorded the
outcome of the cancelled execution. -/
def exFinal : ServerState := worker_finish exAfterCancel "t1"

/-- `t1` ran to completion: the child wrote a done file and the worker
recorded `done` with its result. -/
def exDoneState : ServerState :=
  worker_finish (child_finish exProcessing "t1" (.doneFile (.str "B"))) "t1"

/-- `t1`'s child exited within the deadline without writing any result
file. -/
def exNoResState : ServerState :=
  { exEmpty with
      tasks := fun t => if t = "t1" then some Status.processing else none
      processMap := fun t => if t = "t1" then some false else none
      scratch := fun t => if t = "t1" then some ⟨0, ["t1/img_0"], none⟩ else none
      solveCalls := ["t1"] }

/-! ## Supporting lemmas -/

theorem pyTake_length_le (s : String) (n : Nat) : (pyTake s n).length ≤ n := by
  show (s.data.take n).length ≤ n
  rw [List.length_take]
  exact min_le_left _ _

theorem statusField_mem (d : List (String × Json)) :
    statusField d = "ok" ∨ statusField d = "unclear" ∨
    statusField d = "confused" := by
  unfold statusField
  split
  · split
    · rename_i hmem
      tauto
    · simp
  · simp

theorem correctOptionField_mem (d : List (String × Json)) :
    correctOptionField d = none ∨ correctOptionField d = some "A" ∨
    correctOptionField d = some "B" ∨ correctOptionField d = some "C" ∨
    correctOptionField d = some "D" ∨ correctOptionField d = some "E" := by
  unfold correctOptionField
  split
  · split
    · split
      · dsimp only
        split
        · rename_i hmem
          rcases hmem with h | h | h | h | h <;> simp [h]
        · simp
      · simp
    · simp
  · simp

theorem explanationField_bound (d : List (String × Json)) :
    explanationField d = none ∨
    ∃ e, explanationField d = some e ∧ e.length ≤ 200 := by
  unfold explanationField
  cases pget d "explanation" with
  | none => simp
  | some j =>
      by_cases hj : j.truthy = true
      · simp only [hj, if_true]
        exact Or.inr ⟨_, rfl, pyTake_length_le _ _⟩
      · simp [hj]

theorem update_idem_apply {α : Type} (tid t : String) (f : String → α) (v : α) :
    (if t = tid then v else if t = tid then v else f t) =
    if t = tid then v else f t := by
  by_cases ht : t = tid <;> simp [ht]

/-! ## Claims -/

/-- Claim C10: for every input dictionary (including the empty or
absent one), `sanitize_and_build_response` returns a dictionary whose
`status` is one of `"ok"`, `"unclear"`, `"confused"`, whose
`correct_option` is one of `"A"`–`"E"` or null, and whose `explanation`
is null or a string of at most 200 characters. -/
theorem sanitize_response_well_formed (parsed : Option (List (String × Json)))
    (qnum : Option Int) (total_images : Nat) :
    let out := sanitize_and_build_response parsed qnum total_images
    (out.status = "ok" ∨ out.status = "unclear" ∨ out.status = "confused") ∧
    (out.correct_option = none ∨ out.correct_option = some "A" ∨
      out.correct_option = some "B" ∨ out.correct_option = some "C" ∨
      out.correct_option = some "D" ∨ out.correct_option = some "E") ∧
    (out.explanation = none ∨
      ∃ e, out.explanation = some e ∧ e.length ≤ 200) := by
  cases parsed with
  | none => simp [sanitize_and_build_response]
  | some d =>
      by_cases hd : d.isEmpty = true
      · simp [sanitize_and_build_response, hd]
      · simp only [sanitize_and_build_response]
        rw [if_neg hd]
        exact ⟨statusField_mem d, correctOptionField_mem d,
          explanationField_bound d⟩

/-- Claim C1 counterexample: a cancel request arriving after the worker
has recorded status `done` is not a no-op — `cancel_endpoint`
unconditionally overwrites the terminal status with `cancelled`. -/
theorem late_cancel_overwrites_done_status :
    exDoneState.tasks "t1" = some Status.done ∧
    (cancel_endpoint exDoneState "t1").1.tasks "t1" = some Status.cancelled ∧
    (cancel_endpoint exDoneState "t1").1.tasks "t1" ≠ some Status.done := by
  decide

/-- Claim C1 (amended): a task identifier still maps to exactly one
status at any instant, but a terminal status is not stable — a cancel
request on any known task (even one already `done` or `failed`)
overwrites its recorded status with `cancelled`. -/
theorem cancel_always_records_cancelled (s : ServerState) (tid : String)
    (h : s.tasks tid ≠ none) :
    (cancel_endpoint s tid).1.tasks tid = some Status.cancelled := by
  unfold cancel_endpoint
  cases hs : s.tasks tid with
  | none => exact absurd hs h
  | some st =>
      dsimp only
      split <;> simp

/-- Witness for the amended claim C1, at a state whose task is already
`done`. -/
theorem cancel_always_records_cancelled_witness :
    exDoneState.tasks "t1" ≠ none ∧
    (cancel_endpoint exDoneState "t1").1.tasks "t1" = some Status.cancelled :=
  ⟨by decide, cancel_always_records_cancelled exDoneState "t1" (by decide)⟩

/-- Claim C2: for a task marked cancelled while still queued, the worker
that dequeues its descriptor records status `cancelled`, spawns no child
process, and never invokes the external solve call for that task. -/
theorem cancelled_in_queue_skips_solve (s : ServerState) (d : TaskDesc)
    (rest : List TaskDesc) (hq : s.taskQueue = d :: rest)
    (hc : s.cancelled d.task_id = true) :
    (worker_begin s).1.tasks d.task_id = some Status.cancelled ∧
    (worker_begin s).1.solveCalls = s.solveCalls ∧
    (worker_begin s).1.processMap = s.processMap ∧
    (worker_begin s).2 = none := by
  unfold worker_begin
  rw [hq]
  simp [hc]

/-- Witness for claim C2: task `t1` was cancelled while queued; the
worker then dequeues it, marks it cancelled, and spawns nothing. -/
theorem cancelled_in_queue_skips_solve_witness :
    (exQueuedCancelled.taskQueue = [⟨"t1", ["t1/img_0"], none, some "5"⟩] ∧
      exQueuedCancelled.cancelled "t1" = true) ∧
    ((worker_begin exQueuedCancelled).1.tasks "t1" = some Status.cancelled ∧
      (worker_begin exQueuedCancelled).1.solveCalls =
        exQueuedCancelled.solveCalls ∧
      (worker_begin exQueuedCancelled).1.processMap =
        exQueuedCancelled.processMap ∧
      (worker_begin exQueuedCancelled).2 = none) :=
  ⟨⟨by decide, by decide⟩,
    cancelled_in_queue_skips_solve exQueuedCancelled
      ⟨"t1", ["t1/img_0"], none, some "5"⟩ [] (by decide) (by decide)⟩

/-- Claim C3: when the child is still alive after the deadline, the
worker terminates it (the id is popped from `PROCESS_MAP` after the
terminate and join) and records status `failed` with error `"timeout"`. -/
theorem timeout_records_failed_timeout (s : ServerState) (tid : String)
    (h : s.processMap tid = some true) :
    (worker_finish s tid).tasks tid = some Status.failed ∧
    (worker_finish s tid).results tid = some (.errEntry "timeout") ∧
    (worker_finish s tid).processMap tid = none := by
  unfold worker_finish
  rw [h]
  simp

/-- Witness for claim C3, at the state where `t1`'s child is alive when
the join deadline expires. -/
theorem timeout_records_failed_timeout_witness :
    exProcessing.processMap "t1" = some true ∧
    ((worker_finish exProcessing "t1").tasks "t1" = some Status.failed ∧
      (worker_finish exProcessing "t1").results "t1" =
        some (.errEntry "timeout") ∧
      (worker_finish exProcessing "t1").processMap "t1" = none) :=
  ⟨by decide, timeout_records_failed_timeout exProcessing "t1" (by decide)⟩

/-- Claim C4 counterexample: when the child exits within the deadline
leaving no parseable result, the recorded error string is
`"no_result_file"`, not `"no_result"` as claimed. -/
theorem no_result_error_string_differs :
    exNoResState.processMap "t1" = some false ∧
    read_result_file exNoResState.scratch "t1" = none ∧
    (worker_finish exNoResState "t1").tasks "t1" = some Status.failed ∧
    (worker_finish exNoResState "t1").results "t1" =
      some (.errEntry "no_result_file") ∧
    (worker_finish exNoResState "t1").results "t1" ≠
      some (.errEntry "no_result") := by
  have h4 : (worker_finish exNoResState "t1").results "t1" =
      some (ResultEntry.errEntry "no_result_file") := rfl
  refine ⟨rfl, rfl, rfl, h4, ?_⟩
  rw [h4]
  simp

/-- Claim C4 (amended): when the child exits within the deadline leaving
no result file or a malformed one, the worker records status `failed`
with error `"no_result_file"`. -/
theorem no_result_records_failed_no_result_file (s : ServerState)
    (tid : String) (halive : s.processMap tid = some false)
    (hres : read_result_file s.scratch tid = none) :
    (worker_finish s tid).tasks tid = some Status.failed ∧
    (worker_finish s tid).results tid = some (.errEntry "no_result_file") := by
  unfold worker_finish
  rw [halive, hres]
  simp

/-- Witness for the amended claim C4. -/
theorem no_result_records_failed_no_result_file_witness :
    (exNoResState.processMap "t1" = some false ∧
      read_result_file exNoResState.scratch "t1" = none) ∧
    ((worker_finish exNoResState "t1").tasks "t1" = some Status.failed ∧
      (worker_finish exNoResState "t1").results "t1" =
        some (.errEntry "no_result_file")) :=
  ⟨⟨by decide, rfl⟩,
    no_result_records_failed_no_result_file exNoResState "t1" (by decide) rfl⟩

/-- Claim C5 counterexample: on the trace upload → dequeue/spawn →
cancel while the child is alive → worker resumes, the status is
momentarily `cancelled` but the final recorded status is `failed`, not
`cancelled`: the worker reads the `failed/cancelled_by_user` file the
cancel endpoint wrote and overwrites the status. -/
theorem trace_cancel_while_processing_ends_failed :
    exProcessing.tasks "t1" = some Status.processing ∧
    exProcessing.processMap "t1" = some true ∧
    exAfterCancel.tasks "t1" = some Status.cancelled ∧
    exFinal.tasks "t1" = some Status.failed ∧
    exFinal.tasks "t1" ≠ some Status.cancelled := by
  decide

/-- Claim C5 (amended): when a cancel request arrives while the child is
alive and forced termination succeeds before a result is produced, the
cancel endpoint records `cancelled`, but once the worker's join returns
it overwrites the final status with `failed`, the result record holding
the whole `failed/cancelled_by_user` file. -/
theorem cancel_while_processing_final_status_failed (s : ServerState)
    (tid : String) (dir : ScratchDir)
    (hstat : s.tasks tid = some Status.processing)
    (halive : s.processMap tid = some true)
    (hdir : s.scratch tid = some dir) :
    (cancel_endpoint s tid).1.tasks tid = some Status.cancelled ∧
    (worker_finish (cancel_endpoint s tid).1 tid).tasks tid =
      some Status.failed ∧
    (worker_finish (cancel_endpoint s tid).1 tid).results tid =
      some (.fileEntry (.failedFile "cancelled_by_user")) := by
  unfold cancel_endpoint
  rw [hstat]
  dsimp only
  rw [halive]
  dsimp only
  unfold worker_finish read_result_file write_result_file
  simp [hdir]

/-- Witness for the amended claim C5, on the concrete
upload → dequeue → cancel trace. -/
theorem cancel_while_processing_final_status_failed_witness :
    (exProcessing.tasks "t1" = some Status.processing ∧
      exProcessing.processMap "t1" = some true ∧
      exProcessing.scratch "t1" = some ⟨0, ["q5.jpg"], none⟩) ∧
    ((cancel_endpoint exProcessing "t1").1.tasks "t1" =
        some Status.cancelled ∧
      (worker_finish (cancel_endpoint exProcessing "t1").1 "t1").tasks "t1" =
        some Status.failed ∧
      (worker_finish (cancel_endpoint exProcessing "t1").1 "t1").results "t1" =
        some (.fileEntry (.failedFile "cancelled_by_user"))) :=
  ⟨⟨by decide, by decide, rfl⟩,
    cancel_while_processing_final_status_failed exProcessing "t1"
      ⟨0, ["q5.jpg"], none⟩ (by decide) (by decide) rfl⟩

/-- Claim C6: a submission whose scratch-file write fails raises a 400
to the caller synchronously; the task store, the results map and the
queue are unchanged, so no task is recorded and no descriptor is
enqueued. -/
theorem failed_save_preserves_store_and_queue (s : ServerState)
    (task_id : String) (files : List String)
    (batch_id question_number : Option String) (now : Int) (written : Nat) :
    (upload_endpoint s task_id files batch_id question_number now
        true written).1.tasks = s.tasks ∧
    (upload_endpoint s task_id files batch_id question_number now
        true written).1.results = s.results ∧
    (upload_endpoint s task_id files batch_id question_number now
        true written).1.taskQueue = s.taskQueue ∧
    (upload_endpoint s task_id files batch_id question_number now
        true written).2 = .httpError 400 "Failed saving files" := by
  unfold upload_endpoint save_upload_files
  simp

/-- Claim C7 counterexample: running cleanup with `days = 0` at time 1
removes the scratch directory of task `t1` although `t1` is still
`queued`. -/
theorem cleanup_removes_queued_scratch :
    exUploaded.tasks "t1" = some Status.queued ∧
    exUploaded.scratch "t1" = some ⟨0, ["q5.jpg"], none⟩ ∧
    (cleanup_older exUploaded 0 1).scratch "t1" = none :=
  ⟨by decide, rfl, rfl⟩

/-- Claim C7 (amended): cleanup selects directories by age alone — it
removes the scratch directory of any task whose directory modification
time precedes the cutoff, even while that task is still queued or
processing (there is no terminal-status guard). -/
theorem cleanup_removes_by_age_regardless_of_status (s : ServerState)
    (tid : String) (dir : ScratchDir) (days now : Int)
    (hstat : s.tasks tid = some Status.queued ∨
      s.tasks tid = some Status.processing)
    (hdir : s.scratch tid = some dir)
    (hold : dir.mtime < now - days * 86400) :
    (cleanup_older s days now).scratch tid = none := by
  unfold cleanup_older
  dsimp only
  rw [hdir]
  simp [hold]

/-- Witness for the amended claim C7, at the queued task `t1`. -/
theorem cleanup_removes_by_age_regardless_of_status_witness :
    (exUploaded.tasks "t1" = some Status.queued ∧
      exUploaded.scratch "t1" = some ⟨0, ["q5.jpg"], none⟩ ∧
      (0 : Int) < 1 - 0 * 86400) ∧
    (cleanup_older exUploaded 0 1).scratch "t1" = none :=
  ⟨⟨by decide, rfl, by decide⟩,
    cleanup_removes_by_age_regardless_of_status exUploaded "t1"
      ⟨0, ["q5.jpg"], none⟩ 0 1 (Or.inl (by decide)) rfl (by decide)⟩

/-- Claim C8: cleanup modifies only scratch storage: the task store and
the results map are untouched, and a query after cleanup returns exactly
what it returned before. -/
theorem cleanup_preserves_task_store (s : ServerState) (days now : Int)
    (tid : String) :
    (cleanup_older s days now).tasks = s.tasks ∧
    (cleanup_older s days now).results = s.results ∧
    result_endpoint (cleanup_older s days now) tid = result_endpoint s tid :=
  ⟨rfl, rfl, rfl⟩

/-- Claim C9: cancellation is idempotent — cancelling a known task a
second time, with no other operation in between, leaves the entire
server state (task store, cancellation registry, results, process map,
scratch storage) exactly as after the first call and returns the same
response both times. -/
theorem cancel_idempotent (s : ServerState) (tid : String)
    (h : s.tasks tid ≠ none) :
    cancel_endpoint (cancel_endpoint s tid).1 tid = cancel_endpoint s tid := by
  cases hs : s.tasks tid with
  | none => exact absurd hs h
  | some st =>
      unfold cancel_endpoint
      rw [hs]
      dsimp only
      cases hp : s.processMap tid with
      | none => simp [hp, update_idem_apply]
      | some a =>
          cases a
          · simp [hp, update_idem_apply]
          · simp [hp, update_idem_apply]

/-- Witness for claim C9, at the state where `t1` is processing with a
live child: the first cancel terminates the child, the second is a
no-op. -/
theorem cancel_idempotent_witness :
    exProcessing.tasks "t1" ≠ none ∧
    cancel_endpoint (cancel_endpoint exProcessing "t1").1 "t1" =
      cancel_endpoint exProcessing "t1" :=
  ⟨by decide, cancel_idempotent exProcessing "t1" (by decide)⟩

end Spec2Proof
